import Mathlib

/-!
Verification of the Samsung Exynos TMU driver (drivers/soc/samsung/exynos-pm.c,
TMU half of the file).  The C code is shallowly embedded: machine integers are
modelled as `Nat`/`Int` with explicit wrapping where the C code converts values,
C integer division (truncation toward zero) is `Int.tdiv`, MMIO register files
are functions `Nat → Nat` and register writes are collected in explicit traces.
-/

namespace ExynosTmu

/-- C conversion of a (possibly negative) `int` value to `u16`:
reduction modulo 2^16, yielding a value in [0, 65535]. -/
def toU16 (a : Int) : Nat := (a % 65536).toNat

/-- C conversion of an `int` value to `u32`: reduction modulo 2^32. -/
def toU32 (a : Int) : Nat := (a % 4294967296).toNat

/-- C conversion of an `int` value to `u8`: reduction modulo 2^8. -/
def toU8 (a : Int) : Nat := (a % 256).toNat

/-- Constants from the TMU register map (exynos-pm.c, TMU section). -/
def MCELSIUS : Int := 1000

def TOTAL_SENSORS : Nat := 8

def EXYNOS_TMU_REG_TRIMINFO : Nat := 0x0

def EXYNOS_TMU_REG_CONTROL : Nat := 0x20

def EXYNOS_TMU_REG_CURRENT_TEMP1_0 : Nat := 0x40

def EXYNOS_TMU_REG_INTEN : Nat := 0x110

def EXYNOS_THD_TEMP_RISE7_6 : Nat := 0x50

def EXYNOS_THD_TEMP_FALL7_6 : Nat := 0x60

def EXYNOS_THD_TEMP_R_OFFSET : Nat := 0x120

def EXYNOS_TMU_REG_INTPEND0 : Nat := 0x118

def EXYNOS_TMU_REG_INTPEND5 : Nat := 0x318

def EXYNOS_TMU_REG_INTPEN_OFFSET : Nat := 0x10

def EXYNOS_TMU_REG_AVG_CON : Nat := 0x38

def EXYNOS_TMU_TEMP_SHIFT : Nat := 9

def EXYNOS_TMU_TEMP_MASK : Nat := 0x1ff

def EXYNOS_TMU_CALIB_SEL_SHIFT : Nat := 23

def EXYNOS_TMU_CALIB_SEL_MASK : Nat := 0x1

def EXYNOS_TMU_TRIMINFO_85_P0_SHIFT : Nat := 9

/-- Modelled from the spec: the calibration-type enumerators
(`TYPE_ONE_POINT_TRIMMING`, `TYPE_TWO_POINT_TRIMMING`) live in the header
`exynos_tmu.h`, which is not among the sources; the spec lists the modes
ONE_POINT, TWO_POINT and DEFAULT_OFFSET, and the in-file trim-info
enumerators (`EXYNOS_TRIMINFO_ONE_POINT_TRIMMING (0)`,
`EXYNOS_TRIMINFO_TWO_POINT_TRIMMING (1)`) fix the numeric values. -/
def TYPE_ONE_POINT_TRIMMING : Nat := 0

def TYPE_TWO_POINT_TRIMMING : Nat := 1

/-- Modelled from the spec: `EXYNOS_MIN_TEMP` comes from the missing header
`exynos_tmu.h`; the spec calls it MIN_TEMP, the bottom of the valid
temperature range in degrees Celsius. -/
def EXYNOS_MIN_TEMP : Nat := 15

/-- Modelled from the spec: `EXYNOS_MAX_TEMP` comes from the missing header
`exynos_tmu.h`; the spec calls it MAX_TEMP, the top of the valid
temperature range in degrees Celsius. -/
def EXYNOS_MAX_TEMP : Nat := 125

/-- Mirror of `struct exynos_tmu_platform_data` (fields the TMU algorithms
use; C types: the trim points and the default offset are `u8`, the efuse
value and `cal_type` are `u32`). -/
structure PlatformData where
  gain : Nat
  reference_voltage : Nat
  noise_cancel_mode : Nat
  efuse_value : Nat
  first_point_trim : Nat
  second_point_trim : Nat
  default_temp_offset : Nat
  cal_type : Nat
  deriving Repr, DecidableEq

/-- Mirror of `struct remote_sensor_info`. -/
structure RemoteSensorInfo where
  sensor_num : Nat
  cal_type : Nat
  temp_error1 : Nat
  temp_error2 : Nat
  deriving Repr, DecidableEq

/-- Mirror of a bound `struct thermal_cooling_device`: the only capability
the TMU core consults is whether the `set_cur_temp` operation is provided
(`cdev->ops->set_cur_temp` non-NULL). -/
structure CoolingDevice where
  has_set_cur_temp : Bool
  deriving Repr, DecidableEq

/-- Mirror of the fields of `struct exynos_tmu_data` that the embedded
algorithms read and write.  `temp_error1`/`temp_error2` are `u16` in C;
`sensors` is the active-sensor bitmask; `sensing_mode` holds the
aggregation policy index. -/
structure TmuData where
  id : Int
  hotplug_enable : Bool
  hotplug_in_threshold : Int
  hotplug_out_threshold : Int
  pdata : PlatformData
  temp_error1 : Nat
  temp_error2 : Nat
  sensors : Nat
  sensing_mode : Nat
  cool_dev : Option CoolingDevice
  remote_sensors : Nat → RemoteSensorInfo

/-- Clamping of the `u8` input temperature of `temp_to_code`
(`if (temp > EXYNOS_MAX_TEMP) ... else if (temp < EXYNOS_MIN_TEMP) ...`). -/
def clampTempU8 (temp : Nat) : Nat :=
  if temp > EXYNOS_MAX_TEMP then EXYNOS_MAX_TEMP
  else if temp < EXYNOS_MIN_TEMP then EXYNOS_MIN_TEMP
  else temp

/-- `temp_to_code` of exynos-pm.c: convert a Celsius temperature (a `u8`)
into a raw sensor code, by the per-device calibration.  All arithmetic
happens on C `int`, so on `Int` with `Int.tdiv` for `/`. -/
def temp_to_code (data : TmuData) (temp : Nat) : Int :=
  let pdata := data.pdata
  let t : Int := clampTempU8 temp
  if pdata.cal_type = TYPE_TWO_POINT_TRIMMING then
    Int.tdiv ((t - pdata.first_point_trim) *
        ((data.temp_error2 : Int) - (data.temp_error1 : Int)))
      ((pdata.second_point_trim : Int) - (pdata.first_point_trim : Int)) +
      (data.temp_error1 : Int)
  else if pdata.cal_type = TYPE_ONE_POINT_TRIMMING then
    t + (data.temp_error1 : Int) - (pdata.first_point_trim : Int)
  else
    t + (pdata.default_temp_offset : Int)

/-- Clamping of the resulting `int` temperature of `code_to_temp`. -/
def clampTempInt (temp : Int) : Int :=
  if temp > (EXYNOS_MAX_TEMP : Int) then (EXYNOS_MAX_TEMP : Int)
  else if temp < (EXYNOS_MIN_TEMP : Int) then (EXYNOS_MIN_TEMP : Int)
  else temp

/-- `code_to_temp` of exynos-pm.c: convert a raw sensor code (a `u16`) into
a Celsius temperature, clamped to [EXYNOS_MIN_TEMP, EXYNOS_MAX_TEMP]. -/
def code_to_temp (data : TmuData) (temp_code : Nat) : Int :=
  let pdata := data.pdata
  let temp : Int :=
    if pdata.cal_type = TYPE_TWO_POINT_TRIMMING then
      Int.tdiv (((temp_code : Int) - (data.temp_error1 : Int)) *
          ((pdata.second_point_trim : Int) - (pdata.first_point_trim : Int)))
        ((data.temp_error2 : Int) - (data.temp_error1 : Int)) +
        (pdata.first_point_trim : Int)
    else if pdata.cal_type = TYPE_ONE_POINT_TRIMMING then
      (temp_code : Int) - (data.temp_error1 : Int) + (pdata.first_point_trim : Int)
    else
      (temp_code : Int) - (pdata.default_temp_offset : Int)
  clampTempInt temp

/-- The round trip of the two conversions as C composes them: the `int`
result of `temp_to_code` is passed to the `u16` parameter of
`code_to_temp`, hence reduced modulo 2^16. -/
def roundTrip (data : TmuData) (temp : Nat) : Int :=
  code_to_temp data (toU16 (temp_to_code data temp))

/-- Modelled from the spec: the aggregation-policy enumerators `AVG`, `MAX`,
`MIN` used by `exynos8895_tmu_read` come from the header `soc/samsung/tmu.h`,
which is not among the sources; the spec maps the sensing-method strings
"average", "maximum", "minimum" to the policies in that order. -/
def AVG : Nat := 0

def MAX : Nat := 1

def MIN : Nat := 2

/-- Register offset of sensor `i` in `exynos8895_tmu_read`
(`if (i < 2) reg_offset = 0; else reg_offset = ((i - 2) / 3 + 1) * 4`). -/
def sensor_reg_offset (i : Nat) : Nat :=
  if i < 2 then 0 else ((i - 2) / 3 + 1) * 4

/-- Bit offset of sensor `i` in `exynos8895_tmu_read`. -/
def sensor_bit_offset (i : Nat) : Nat :=
  if i < 2 then EXYNOS_TMU_TEMP_SHIFT * i
  else EXYNOS_TMU_TEMP_SHIFT * ((i - 2) % 3)

/-- The raw code of sensor `i` as `exynos8895_tmu_read` extracts it from the
current-temperature registers (`(readl(...) >> bit_offset) & 0x1ff`). -/
def sensor_code (mem : Nat → Nat) (i : Nat) : Nat :=
  (mem (EXYNOS_TMU_REG_CURRENT_TEMP1_0 + sensor_reg_offset i) >>>
    sensor_bit_offset i) &&& EXYNOS_TMU_TEMP_MASK

/-- One iteration of the sensor loop of `exynos8895_tmu_read`: the running
state is the pair `(count, result)` of `u32` locals, both starting at 0. -/
def tmu_read_step (data : TmuData) (mem : Nat → Nat) (st : Nat × Nat)
    (i : Nat) : Nat × Nat :=
  if data.sensors &&& (1 <<< i) ≠ 0 then
    let td := sensor_code mem i
    let result :=
      if data.sensing_mode = AVG then st.2 + td
      else if data.sensing_mode = MAX then (if st.2 > td then st.2 else td)
      else if data.sensing_mode = MIN then (if st.2 < td then st.2 else td)
      else td
    (st.1 + 1, result)
  else st

/-- `exynos8895_tmu_read` of exynos-pm.c: fold over the eight possible
sensors, keeping the active ones, then reduce according to the policy.
The final `result / count` of the AVG policy is a C `u32` division; when
`count` is zero the C code divides by zero (undefined behaviour), which the
embedding makes explicit as `none`.  Every other path returns the `result`
local. -/
def exynos8895_tmu_read (data : TmuData) (mem : Nat → Nat) : Option Nat :=
  let st := (List.range TOTAL_SENSORS).foldl (tmu_read_step data mem) (0, 0)
  if data.sensing_mode = AVG then
    if st.1 = 0 then none else some (st.2 / st.1)
  else some st.2

/-- Mirror of the thermal-zone state the TMU functions consult
(`struct thermal_zone_device` fields and `of_thermal` accessors). -/
structure ThermalZone where
  ntrips : Nat
  trip_temp : Nat → Int
  trip_hyst : Nat → Int
  trip_valid : Nat → Bool
  governor_name : String
  last_temperature : Int

/-- The scan loop of `exynos_report_trigger`:
`for (i = 0; i < ntrips; i++) { get_trip_temp(tz, i, &temp);
 if (tz->last_temperature < temp) break; }`.
`fuel` is the number of remaining iterations, so the scan starts with
`go 0 ntrips`. -/
def report_trigger_go (tt : Nat → Int) (last : Int) : Nat → Nat → Nat
  | i, 0 => i
  | i, fuel + 1 => if last < tt i then i else report_trigger_go tt last (i + 1) fuel

/-- The trip index computed by `exynos_report_trigger`:
the loop counter at which the scan stops. -/
def report_trigger_scan (ntrips : Nat) (tt : Nat → Int) (last : Int) : Nat :=
  report_trigger_go tt last 0 ntrips

/-- `exynos_report_trigger` of exynos-pm.c, as the trip-change event it
emits: `none` when no thermal zone is associated (the error path that logs
and drops the report), otherwise the scanned trip index, which the function
puts into the uevent payload. -/
def exynos_report_trigger (tzd : Option ThermalZone) : Option Nat :=
  match tzd with
  | none => none
  | some tz => some (report_trigger_scan tz.ntrips tz.trip_temp tz.last_temperature)

/-- The two pm-qos requests `exynos_throttle_cpu_hotplug` can issue:
`NR_CPUS` restores the full core count, `NR_HOTPLUG_CPUS` reduces it. -/
inductive HotplugRequest where
  | nr_cpus
  | nr_hotplug_cpus
  deriving Repr, DecidableEq

/-- `exynos_throttle_cpu_hotplug` of exynos-pm.c.  The global
`is_cpu_hotplugged_out` flag is passed in and the updated flag is returned,
together with the pm-qos request issued (if any).  `temp` is in
milli-Celsius and is divided by `MCELSIUS` (C `int` division) first. -/
def exynos_throttle_cpu_hotplug (data : TmuData) (is_cpu_hotplugged_out : Bool)
    (temp : Int) : Bool × Option HotplugRequest :=
  let t := Int.tdiv temp MCELSIUS
  if is_cpu_hotplugged_out then
    if t < data.hotplug_in_threshold then (false, some .nr_cpus)
    else (is_cpu_hotplugged_out, none)
  else
    if t ≥ data.hotplug_out_threshold then (true, some .nr_hotplug_cpus)
    else (is_cpu_hotplugged_out, none)

/-- Register offset of trip `i` in the threshold-programming loops of
`exynos8890_tmu_initialize` and `exynos8895_tmu_initialize`
(`reg_off = ((7 - i) / 2) * 4`). -/
def threshold_reg_off (i : Nat) : Nat := ((7 - i) / 2) * 4

/-- Bit offset of trip `i` in the threshold-programming loops
(`bit_off = ((8 - i) % 2)`); the threshold code is shifted by
`16 * bit_off`, so 0 selects the low half-word and 1 the high one. -/
def threshold_bit_off (i : Nat) : Nat := (8 - i) % 2

/-- A device register bank: the register file (addresses are byte offsets
from `data->base`) together with the ordered trace of the writes made. -/
structure Mmio where
  mem : Nat → Nat
  writes : List (Nat × Nat)

/-- `readl`: registers hold 32-bit values. -/
def Mmio.readl (m : Mmio) (addr : Nat) : Nat := m.mem addr % 4294967296

/-- `writel val addr`: update the register file and record the write. -/
def Mmio.writel (m : Mmio) (val addr : Nat) : Mmio :=
  { mem := Function.update m.mem addr val, writes := m.writes ++ [(addr, val)] }

/-- The bitwise complement of a 32-bit mask, as C computes `~mask` on
`u32` (the mask arguments used are below 2^32). -/
def u32not (x : Nat) : Nat := 0xffffffff ^^^ x

/-- The trim-parsing step of `exynos8895_tmu_initialize` for sensor `i`:
reads `TRIMINFO + 4*i` and fills the calibration fields, substituting the
efuse fallback where the fused value is zero.  Sensor 0 is the main sensor
(fills `pdata->cal_type`, `temp_error1`, `temp_error2`); the others fill
`remote_sensors[i]`. -/
def tmu_init_trim_step (mem : Mmio) (d : TmuData) (i : Nat) : TmuData :=
  if d.sensors &&& (1 <<< i) ≠ 0 then
    let trim_info := mem.readl (EXYNOS_TMU_REG_TRIMINFO + 0x4 * i)
    if i = 0 then
      let cal := (trim_info >>> EXYNOS_TMU_CALIB_SEL_SHIFT) &&& EXYNOS_TMU_CALIB_SEL_MASK
      let e1 := trim_info &&& EXYNOS_TMU_TEMP_MASK
      let e1 := if e1 = 0 then d.pdata.efuse_value &&& EXYNOS_TMU_TEMP_MASK else e1
      let d := { d with pdata := { d.pdata with cal_type := cal }, temp_error1 := e1 }
      if d.pdata.cal_type = TYPE_TWO_POINT_TRIMMING then
        let e2 := (trim_info >>> EXYNOS_TMU_TRIMINFO_85_P0_SHIFT) &&& EXYNOS_TMU_TEMP_MASK
        let e2 := if e2 = 0 then
            (d.pdata.efuse_value >>> EXYNOS_TMU_TRIMINFO_85_P0_SHIFT) &&& EXYNOS_TMU_TEMP_MASK
          else e2
        { d with temp_error2 := e2 }
      else d
    else
      let cal := (trim_info >>> EXYNOS_TMU_CALIB_SEL_SHIFT) &&& EXYNOS_TMU_CALIB_SEL_MASK
      let e1 := trim_info &&& EXYNOS_TMU_TEMP_MASK
      let e1 := if e1 = 0 then d.pdata.efuse_value &&& EXYNOS_TMU_TEMP_MASK else e1
      let r := { d.remote_sensors i with cal_type := cal, temp_error1 := e1 }
      let r :=
        if d.pdata.cal_type = TYPE_TWO_POINT_TRIMMING then
          let e2 := (trim_info >>> EXYNOS_TMU_TRIMINFO_85_P0_SHIFT) &&& EXYNOS_TMU_TEMP_MASK
          let e2 := if e2 = 0 then
              (d.pdata.efuse_value >>> EXYNOS_TMU_TRIMINFO_85_P0_SHIFT) &&& EXYNOS_TMU_TEMP_MASK
            else e2
          { r with temp_error2 := e2 }
        else r
      { d with remote_sensors := Function.update d.remote_sensors i r }
  else d

/-- One iteration (trip `i`, sensor block `j`) of the threshold-programming
loop of `exynos8895_tmu_initialize`.  The carried state is the register
bank and the `falling_threshold` local (a `u32` that is never re-read from
the hardware, unlike `rising_threshold`). -/
def tmu_init_threshold_step (d : TmuData) (tz : ThermalZone) (j : Nat)
    (st : Mmio × Nat) (i : Nat) : Mmio × Nat :=
  let (m, falling) := st
  let reg_off := threshold_reg_off i
  let bit_off := threshold_bit_off i
  let reg_off := if j > 0 then reg_off + EXYNOS_THD_TEMP_R_OFFSET else reg_off
  let temp := Int.tdiv (tz.trip_temp i) MCELSIUS
  let temp_hist := temp - Int.tdiv (tz.trip_hyst i) MCELSIUS
  let threshold_code := temp_to_code d (toU8 temp)
  let rising := m.readl (EXYNOS_THD_TEMP_RISE7_6 + reg_off)
  let rising := rising &&& u32not (EXYNOS_TMU_TEMP_MASK <<< (16 * bit_off))
  let rising := rising ||| ((toU32 threshold_code <<< (16 * bit_off)) % 4294967296)
  let m := m.writel rising (EXYNOS_THD_TEMP_RISE7_6 + reg_off)
  let threshold_code := temp_to_code d (toU8 temp_hist)
  let falling := falling &&& u32not (EXYNOS_TMU_TEMP_MASK <<< (16 * bit_off))
  let falling := falling ||| ((toU32 threshold_code <<< (16 * bit_off)) % 4294967296)
  let m := m.writel falling (EXYNOS_THD_TEMP_FALL7_6 + reg_off)
  (m, falling)

/-- The per-sensor-block (`j`) threshold loop: trips are visited in
descending index order (`for (i = ntrips - 1; i >= 0; i--)`). -/
def tmu_init_threshold_block (d : TmuData) (tz : ThermalZone)
    (st : Mmio × Nat) (j : Nat) : Mmio × Nat :=
  if d.sensors &&& (1 <<< j) ≠ 0 then
    ((List.range tz.ntrips).reverse).foldl (tmu_init_threshold_step d tz j) st
  else st

/-- The interrupt-pending register of sensor `i` in
`exynos8895_tmu_clear_irqs`. -/
def intpend_reg (i : Nat) : Nat :=
  if i < 5 then EXYNOS_TMU_REG_INTPEND0 + EXYNOS_TMU_REG_INTPEN_OFFSET * i
  else EXYNOS_TMU_REG_INTPEND5 + EXYNOS_TMU_REG_INTPEN_OFFSET * i

/-- `exynos8895_tmu_clear_irqs` of exynos-pm.c: for every active sensor,
read its pending register and write the value back (write-1-to-clear). -/
def exynos8895_tmu_clear_irqs (d : TmuData) (m : Mmio) : Mmio :=
  (List.range TOTAL_SENSORS).foldl
    (fun m i =>
      if d.sensors &&& (1 <<< i) ≠ 0 then
        m.writel (m.readl (intpend_reg i)) (intpend_reg i)
      else m)
    m

/-- `exynos8895_tmu_initialize` of exynos-pm.c: parse the trim registers of
every active sensor, then — unless the active governor is the power
allocator — program the rising and falling threshold registers for every
active sensor block and every configured trip, and finally clear pending
interrupts.  Returns the updated device data, the register bank and the
C return value (always 0). -/
def exynos8895_tmu_init (d : TmuData) (tz : ThermalZone) (m : Mmio) :
    TmuData × Mmio × Int :=
  let d := (List.range TOTAL_SENSORS).foldl (tmu_init_trim_step m) d
  let m :=
    if tz.governor_name ≠ "power_allocator" then
      ((List.range TOTAL_SENSORS).foldl (tmu_init_threshold_block d tz) (m, 0)).1
    else m
  let m := exynos8895_tmu_clear_irqs d m
  (d, m, 0)

/-- `get_con_reg` of exynos-pm.c: splice the platform reference voltage,
gain and noise-cancel mode into a control-register value. -/
def get_con_reg (d : TmuData) (con : Nat) : Nat :=
  let pdata := d.pdata
  let con := con &&& u32not (0x1f <<< 24)
  let con := con ||| ((pdata.reference_voltage <<< 24) % 4294967296)
  let con := con &&& u32not (0xf <<< 8)
  let con := con ||| ((pdata.gain <<< 8) % 4294967296)
  if pdata.noise_cancel_mode ≠ 0 then
    (con &&& u32not (0x7 <<< 13)) ||| ((pdata.noise_cancel_mode <<< 13) % 4294967296)
  else con

/-- The rising-interrupt enable word of `exynos8895_tmu_control`: one bit
per valid trip (shifts `EXYNOS_TMU_INTEN_RISE0..7_SHIFT` are 0..7), then
mirrored into the falling half (`interrupt_en |= interrupt_en << 16`). -/
def interrupt_en_word (tz : ThermalZone) : Nat :=
  let rise :=
    (List.range 8).foldl (fun acc i => acc ||| (if tz.trip_valid i then 1 <<< i else 0)) 0
  rise ||| (rise <<< 16)

/-- `exynos8895_tmu_control` of exynos-pm.c: drop the core-enable and
therm-trip bits, re-derive the control word from the fused buffer values,
fix the averaging mode, then (on) set the enable bits and write the
per-sensor interrupt-enable registers — skipped entirely when the active
governor is the power allocator — and finally write the control and
averaging registers. -/
def exynos8895_tmu_control (d : TmuData) (tz : ThermalZone) (m : Mmio)
    (enable : Bool) : Mmio :=
  let con := m.readl EXYNOS_TMU_REG_CONTROL
  let con := con &&& u32not (1 <<< 0)
  let con := con &&& u32not (1 <<< 12)
  let m := m.writel con EXYNOS_TMU_REG_CONTROL
  let trim_info := m.readl EXYNOS_TMU_REG_TRIMINFO
  let trim_info1 := m.readl 0x4
  let trim_info2 := m.readl 0x8
  let t_buf_vref_sel := (trim_info >>> 18) &&& 0x1f
  let t_buf_slope_sel := (trim_info1 >>> 18) &&& 0xf
  let avg_sel := (trim_info2 >>> 18) &&& 0x3
  let con := get_con_reg d (m.readl EXYNOS_TMU_REG_CONTROL)
  let avg_con := m.readl EXYNOS_TMU_REG_AVG_CON
  let avg_con :=
    if avg_sel ≠ 0 then avg_con ||| ((avg_con &&& 0x7) ||| 0x0)
    else avg_con ||| ((avg_con &&& 0x7) ||| 0x6)
  let (con, interrupt_en) :=
    if enable then
      let con := con ||| ((t_buf_vref_sel <<< 24) % 4294967296)
      let con := con ||| ((t_buf_slope_sel <<< 8) % 4294967296)
      let con := con ||| (1 <<< 0)
      let con := con ||| (1 <<< 12)
      (con, interrupt_en_word tz)
    else
      (con &&& u32not (1 <<< 0) &&& u32not (1 <<< 12), 0)
  let m :=
    if tz.governor_name ≠ "power_allocator" then
      (List.range TOTAL_SENSORS).foldl
        (fun m i =>
          if d.sensors &&& (1 <<< i) ≠ 0 then
            m.writel interrupt_en (EXYNOS_TMU_REG_INTEN + 0x10 * i)
          else m)
        m
    else m
  let m := m.writel con EXYNOS_TMU_REG_CONTROL
  m.writel avg_con EXYNOS_TMU_REG_AVG_CON

/-- The rising and falling threshold register addresses: the four shared
registers of each kind for the main sensor block, and the same four offset
by `EXYNOS_THD_TEMP_R_OFFSET` for the remote block. -/
def thresholdAddrs : List Nat :=
  let main := (List.range 4).map (fun k => EXYNOS_THD_TEMP_RISE7_6 + 4 * k) ++
    (List.range 4).map (fun k => EXYNOS_THD_TEMP_FALL7_6 + 4 * k)
  main ++ main.map (· + EXYNOS_THD_TEMP_R_OFFSET)

/-- The per-sensor interrupt-enable register addresses
(`EXYNOS_TMU_REG_INTEN + 0x10 * i`). -/
def intenAddrs : List Nat :=
  (List.range TOTAL_SENSORS).map (fun i => EXYNOS_TMU_REG_INTEN + 0x10 * i)

/-- The shared-registry state the probe/remove paths manipulate: the global
`dtm_dev_list` (device ids, in insertion order) and the number of times the
process-wide PM notifier `exynos_tmu_pm_notifier` is currently registered. -/
structure RegistryState where
  dtm_dev_list : List Int
  notifier_registrations : Nat
  deriving Repr, DecidableEq

/-- The registry effect of `exynos_tmu_probe`: `list_add_tail` the new
device, then `if (list_is_singular(&dtm_dev_list)) register_pm_notifier`. -/
def probe_step (s : RegistryState) (id : Int) : RegistryState :=
  let l := s.dtm_dev_list ++ [id]
  { dtm_dev_list := l,
    notifier_registrations :=
      if l.length = 1 then s.notifier_registrations + 1
      else s.notifier_registrations }

/-- The registry effect of `exynos_tmu_remove`:
`if (list_is_singular(&dtm_dev_list)) unregister_pm_notifier` — tested
before the deletion — then delete every list node whose id matches. -/
def remove_step (s : RegistryState) (id : Int) : RegistryState :=
  let c :=
    if s.dtm_dev_list.length = 1 then s.notifier_registrations - 1
    else s.notifier_registrations
  { dtm_dev_list := s.dtm_dev_list.filter (fun x => x ≠ id),
    notifier_registrations := c }

/-- A probe or remove step of the device lifecycle. -/
inductive RegOp where
  | probe (id : Int)
  | remove (id : Int)
  deriving Repr, DecidableEq

/-- Run a sequence of probe/remove steps from a registry state. -/
def runRegOps (s : RegistryState) : List RegOp → RegistryState
  | [] => s
  | RegOp.probe id :: rest => runRegOps (probe_step s id) rest
  | RegOp.remove id :: rest => runRegOps (remove_step s id) rest

/-- Well-formed lifecycles, tracked against the current id list: a probe
introduces a fresh device id (each physical TMU instance is probed once, with
its own device-tree id) and a remove names a currently registered device. -/
def regOpsWF : List Int → List RegOp → Bool
  | _, [] => true
  | ids, RegOp.probe id :: rest =>
      !ids.contains id && regOpsWF (ids ++ [id]) rest
  | ids, RegOp.remove id :: rest =>
      ids.contains id && regOpsWF (ids.filter (fun x => x ≠ id)) rest

/-- The initial registry state: empty list, notifier not registered. -/
def initRegistry : RegistryState := { dtm_dev_list := [], notifier_registrations := 0 }

/-- The registry invariant: the process-wide suspend notifier is
registered exactly once when the device list is non-empty and not at all
when it is empty. -/
def registryInv (s : RegistryState) : Prop :=
  s.notifier_registrations = if s.dtm_dev_list.isEmpty then 0 else 1

/-- A recorded invocation of a cooling device's `set_cur_temp` operation:
the `suspended` flag and the temperature argument passed. -/
structure SetCurTempCall where
  suspended : Bool
  temp : Int
  deriving Repr, DecidableEq

/-- Result of `exynos_get_temp`: the C return value, the produced
milli-Celsius temperature, and the `set_cur_temp` invocations performed. -/
structure GetTempResult where
  ret : Int
  temp : Int
  calls : List SetCurTempCall
  deriving Repr, DecidableEq

/-- `exynos_get_temp` of exynos-pm.c.  `tmu_read_present` models the
`!data || !data->tmu_read` guard, `raw` the code returned by
`data->tmu_read(data)`, and `suspended` the process-wide suspend flag read
under `thermal_suspend_lock`.  The bound cooling device's `set_cur_temp`
is invoked with `*temp / 1000` exactly when a cooling device is bound, it
provides the operation, and `data->id != 1`. -/
def exynos_get_temp (data : TmuData) (tmu_read_present : Bool) (raw : Nat)
    (suspended : Bool) : GetTempResult :=
  if !tmu_read_present then { ret := -22, temp := 0, calls := [] }
  else
    let temp := code_to_temp data raw * MCELSIUS
    match data.cool_dev with
    | none => { ret := 0, temp := temp, calls := [] }
    | some cdev =>
      if cdev.has_set_cur_temp && data.id != 1 then
        { ret := 0, temp := temp,
          calls := [{ suspended := suspended, temp := Int.tdiv temp 1000 }] }
      else { ret := 0, temp := temp, calls := [] }

/-- The PM events the notifier distinguishes. -/
inductive PmEvent where
  | suspend_prepare
  | post_suspend
  | other
  deriving Repr, DecidableEq

/-- `exynos_pm_notifier` of exynos-pm.c: on `PM_SUSPEND_PREPARE` set the
process-wide `suspended` flag and push `set_cur_temp(cdev, true, 0)` to the
cooling device of every listed device that has one providing the operation
and whose id is not 1; on `PM_POST_SUSPEND` clear the flag.  Returns the
new flag and the invocations performed, tagged with the device id. -/
def exynos_pm_notifier (dtm_dev_list : List TmuData) (suspended : Bool)
    (event : PmEvent) : Bool × List (Int × SetCurTempCall) :=
  match event with
  | .suspend_prepare =>
      (true,
        dtm_dev_list.filterMap (fun devnode =>
          match devnode.cool_dev with
          | some cdev =>
              if cdev.has_set_cur_temp && devnode.id != 1 then
                some (devnode.id, { suspended := true, temp := 0 })
              else none
          | none => none))
  | .post_suspend => (false, [])
  | .other => (suspended, [])

/-! Concrete fixtures used to instantiate the theorems below. -/

/-- A two-point platform configuration with the usual 25/85 trim points. -/
def pd_fixture : PlatformData :=
  { gain := 9, reference_voltage := 16, noise_cancel_mode := 4, efuse_value := 0,
    first_point_trim := 25, second_point_trim := 85, default_temp_offset := 50,
    cal_type := TYPE_TWO_POINT_TRIMMING }

/-- Empty remote-sensor table. -/
def remote_fixture : Nat → RemoteSensorInfo :=
  fun _ => { sensor_num := 0, cal_type := 0, temp_error1 := 0, temp_error2 := 0 }

/-- A device with three active sensors and a one-code-per-degree two-point
calibration (codes 260 at 25 degrees, 320 at 85 degrees). -/
def data_fixture : TmuData :=
  { id := 0, hotplug_enable := true, hotplug_in_threshold := 70,
    hotplug_out_threshold := 85, pdata := pd_fixture, temp_error1 := 260,
    temp_error2 := 320, sensors := 0b111, sensing_mode := AVG, cool_dev := none,
    remote_sensors := remote_fixture }

/-- A register file presenting raw codes 10, 20, 30 for sensors 0, 1, 2
(sensors 0 and 1 share the first current-temperature register at bit
offsets 0 and 9; sensor 2 sits in the next register). -/
def mem_fixture : Nat → Nat :=
  fun a =>
    if a = EXYNOS_TMU_REG_CURRENT_TEMP1_0 then 10 ||| (20 <<< 9)
    else if a = EXYNOS_TMU_REG_CURRENT_TEMP1_0 + 4 then 30
    else 0

/-- A thermal zone with four trips at 40/50/60/70 degrees and a last
reading of 55 degrees, under a trip-based governor. -/
def tz_fixture : ThermalZone :=
  { ntrips := 4, trip_temp := fun i => 40000 + 10000 * (i : Int),
    trip_hyst := fun _ => 5000, trip_valid := fun _ => true,
    governor_name := "step_wise", last_temperature := 55000 }

/-- The same zone driven by the power-budget allocator governor. -/
def tz_pa_fixture : ThermalZone :=
  { tz_fixture with governor_name := "power_allocator" }

/-- An all-zero register bank with an empty write trace. -/
def mmio_fixture : Mmio := { mem := fun _ => 0, writes := [] }

/-- The calibration of the round-trip counterexample: two-point mode with
distinct fused codes 100 and 101 sixty degrees apart. -/
def data_cx_fixture : TmuData :=
  { data_fixture with
    pdata := { pd_fixture with first_point_trim := 25, second_point_trim := 85 },
    temp_error1 := 100, temp_error2 := 101 }

/-- A device with a bound cooling device that provides `set_cur_temp`. -/
def data_cool_fixture : TmuData :=
  { data_fixture with id := 2, cool_dev := some { has_set_cur_temp := true } }

/-- The same cooled device with the suppressed id 1. -/
def data_cool_id1_fixture : TmuData :=
  { data_cool_fixture with id := 1 }

/-! Theorems. -/

/-- C2: with sensor bitmask 0b111 and raw codes [10, 20, 30], the
aggregated result of `exynos8895_tmu_read` is 20 under AVG and 30 under
MAX as the claim states, but 0 — not 10 — under MIN: the fold variable
`result` starts at 0, and `result < temp_data[i] ? result : temp_data[i]`
keeps the initial 0 against every positive code. -/
theorem claim_C2 :
    exynos8895_tmu_read { data_fixture with sensing_mode := AVG } mem_fixture = some 20 ∧
    exynos8895_tmu_read { data_fixture with sensing_mode := MAX } mem_fixture = some 30 ∧
    exynos8895_tmu_read { data_fixture with sensing_mode := MIN } mem_fixture = some 0 := by
  refine ⟨?_, ?_, ?_⟩ <;> rfl

/-- C3: with an empty active-sensor bitmask, `exynos8895_tmu_read` raises
no configuration error: under AVG it reaches `result / count` with
`count == 0` — a division by zero, surfaced as `none` in the embedding —
and under every other policy it silently returns the initial 0. -/
theorem claim_C3 (d : TmuData) (mem : Nat → Nat) (h : d.sensors = 0) :
    (d.sensing_mode = AVG → exynos8895_tmu_read d mem = none) ∧
    (d.sensing_mode ≠ AVG → exynos8895_tmu_read d mem = some 0) := by
  have hstep : ∀ st i, tmu_read_step d mem st i = st := by
    intro st i
    simp [tmu_read_step, h]
  have hfold : (List.range TOTAL_SENSORS).foldl (tmu_read_step d mem) (0, 0) = (0, 0) := by
    rw [show List.range TOTAL_SENSORS = [0, 1, 2, 3, 4, 5, 6, 7] from rfl]
    simp [List.foldl, hstep]
  unfold exynos8895_tmu_read
  rw [hfold]
  constructor
  · intro hm
    simp [hm]
  · intro hm
    simp [hm]

/-- C3 witness: an empty-bitmask device hits the division by zero under
AVG and returns 0 without error under MIN. -/
theorem claim_C3_witness :
    exynos8895_tmu_read { data_fixture with sensors := 0 } mem_fixture = none ∧
    exynos8895_tmu_read { data_fixture with sensors := 0, sensing_mode := MIN }
      mem_fixture = some 0 :=
  ⟨(claim_C3 { data_fixture with sensors := 0 } mem_fixture rfl).1 rfl,
   (claim_C3 { data_fixture with sensors := 0, sensing_mode := MIN } mem_fixture rfl).2
     (by decide)⟩

/-- C4 counterexample: the claimed placement is false already at trip
index 7, whose bit offset is `(8 - 7) % 2 = 1`, not 0 (the code stores
trip 7 in the high half-word), and the claimed bit offsets of trips 6 and
5 are likewise swapped. -/
theorem claim_C4_counterexample :
    ¬ (threshold_reg_off 7 = 0 ∧ threshold_bit_off 7 = 0 ∧
       threshold_reg_off 6 = 0 ∧ threshold_bit_off 6 = 1 ∧
       threshold_reg_off 5 = 4 ∧ threshold_bit_off 5 = 0) := by
  decide

/-- C4 amended: the packing formula `reg_off = ((7 - i) / 2) * 4`,
`bit_off = (8 - i) % 2` places trip 7 at register offset 0 with bit
offset 1, trip 6 at register offset 0 with bit offset 0, and trip 5 at
register offset 4 with bit offset 1. -/
theorem claim_C4_amended :
    threshold_reg_off 7 = 0 ∧ threshold_bit_off 7 = 1 ∧
    threshold_reg_off 6 = 0 ∧ threshold_bit_off 6 = 0 ∧
    threshold_reg_off 5 = 4 ∧ threshold_bit_off 5 = 1 := by
  decide

/-- C6: the CPU-hotplug throttle policy is a two-state hysteresis machine
on the shared flag: NORMAL (false) moves to THROTTLED (true) exactly when
the reported temperature (divided down to Celsius) reaches
`hotplug_out_threshold`, issuing the reduced-core-count request; THROTTLED
moves back to NORMAL exactly when it drops strictly below
`hotplug_in_threshold`, issuing the full-core-count request; otherwise the
state is unchanged and no request is made. -/
theorem claim_C6 (data : TmuData) (st : Bool) (temp : Int) :
    (st = false → Int.tdiv temp MCELSIUS ≥ data.hotplug_out_threshold →
      exynos_throttle_cpu_hotplug data st temp =
        (true, some HotplugRequest.nr_hotplug_cpus)) ∧
    (st = false → ¬ Int.tdiv temp MCELSIUS ≥ data.hotplug_out_threshold →
      exynos_throttle_cpu_hotplug data st temp = (false, none)) ∧
    (st = true → Int.tdiv temp MCELSIUS < data.hotplug_in_threshold →
      exynos_throttle_cpu_hotplug data st temp =
        (false, some HotplugRequest.nr_cpus)) ∧
    (st = true → ¬ Int.tdiv temp MCELSIUS < data.hotplug_in_threshold →
      exynos_throttle_cpu_hotplug data st temp = (true, none)) := by
  unfold exynos_throttle_cpu_hotplug
  refine ⟨?_, ?_, ?_, ?_⟩ <;> intro h1 h2 <;> subst h1 <;> simp [h2]

/-- C6 witness: with `hotplug_in_threshold = 70` and
`hotplug_out_threshold = 85` degrees, 86000 milli-Celsius throttles from
NORMAL, 75000 keeps THROTTLED, 69000 releases, and 72000 keeps NORMAL. -/
theorem claim_C6_witness :
    exynos_throttle_cpu_hotplug data_fixture false 86000 =
      (true, some HotplugRequest.nr_hotplug_cpus) ∧
    exynos_throttle_cpu_hotplug data_fixture true 75000 = (true, none) ∧
    exynos_throttle_cpu_hotplug data_fixture true 69000 =
      (false, some HotplugRequest.nr_cpus) ∧
    exynos_throttle_cpu_hotplug data_fixture false 72000 = (false, none) :=
  ⟨(claim_C6 data_fixture false 86000).1 rfl (by decide),
   (claim_C6 data_fixture true 75000).2.2.2 rfl (by decide),
   (claim_C6 data_fixture true 69000).2.2.1 rfl (by decide),
   (claim_C6 data_fixture false 72000).2.1 rfl (by decide)⟩

/-- C9: the throttle flag is process-wide state, threaded through every
device's policy call: once device 1's temperature reaches its own
out-threshold and sets the flag, the very next evaluation for any other
device 2 runs in the THROTTLED branch — its outcome is decided by device
2's in-threshold alone. -/
theorem claim_C9 (d1 d2 : TmuData) (temp1 temp2 : Int)
    (h : Int.tdiv temp1 MCELSIUS ≥ d1.hotplug_out_threshold) :
    (exynos_throttle_cpu_hotplug d1 false temp1).1 = true ∧
    ((exynos_throttle_cpu_hotplug d2
        (exynos_throttle_cpu_hotplug d1 false temp1).1 temp2).1 = false ↔
      Int.tdiv temp2 MCELSIUS < d2.hotplug_in_threshold) := by
  have h1 : exynos_throttle_cpu_hotplug d1 false temp1 =
      (true, some HotplugRequest.nr_hotplug_cpus) := by
    simp [exynos_throttle_cpu_hotplug, h]
  rw [h1]
  refine ⟨rfl, ?_⟩
  by_cases h2 : Int.tdiv temp2 MCELSIUS < d2.hotplug_in_threshold <;>
    simp [exynos_throttle_cpu_hotplug, h2]

/-- The scan loop of `exynos_report_trigger` stops at the least index not
below `i` whose trip temperature exceeds the last reading, or at
`i + fuel` when none does. -/
theorem report_trigger_go_spec (tt : Nat → Int) (last : Int) (fuel : Nat) :
    ∀ i, i ≤ report_trigger_go tt last i fuel ∧
      report_trigger_go tt last i fuel ≤ i + fuel ∧
      (∀ j, i ≤ j → j < report_trigger_go tt last i fuel → tt j ≤ last) ∧
      (report_trigger_go tt last i fuel < i + fuel →
        last < tt (report_trigger_go tt last i fuel)) := by
  induction fuel with
  | zero =>
    intro i
    refine ⟨Nat.le_refl i, Nat.le_add_right i 0, ?_, ?_⟩
    · intro j h1 h2
      rw [show report_trigger_go tt last i 0 = i from rfl] at h2
      exact absurd (Nat.lt_of_le_of_lt h1 h2) (Nat.lt_irrefl i)
    · intro h
      rw [show report_trigger_go tt last i 0 = i from rfl] at h
      exact absurd h (by omega)
  | succ fuel ih =>
    intro i
    rw [report_trigger_go]
    by_cases h : last < tt i
    · rw [if_pos h]
      refine ⟨Nat.le_refl i, by omega, ?_, fun _ => h⟩
      intro j h1 h2
      exact absurd (Nat.lt_of_le_of_lt h1 h2) (Nat.lt_irrefl i)
    · rw [if_neg h]
      obtain ⟨g1, g2, g3, g4⟩ := ih (i + 1)
      refine ⟨by omega, by omega, ?_, fun hle => g4 (by omega)⟩
      intro j h1 h2
      rcases Nat.eq_or_lt_of_le h1 with rfl | hlt
      · exact not_lt.mp h
      · exact g3 j hlt h2

/-- C5: the deferred trip handler reports, and puts into the emitted
trip-change event, exactly the least trip index (scanning from 0 in
ascending order) whose rising threshold temperature strictly exceeds the
current reading, or the number of configured trips when every configured
threshold has been passed. -/
theorem claim_C5 (tz : ThermalZone) (j : Nat) :
    exynos_report_trigger (some tz) =
      some (report_trigger_scan tz.ntrips tz.trip_temp tz.last_temperature) ∧
    report_trigger_scan tz.ntrips tz.trip_temp tz.last_temperature ≤ tz.ntrips ∧
    (j < report_trigger_scan tz.ntrips tz.trip_temp tz.last_temperature →
      tz.trip_temp j ≤ tz.last_temperature) ∧
    (report_trigger_scan tz.ntrips tz.trip_temp tz.last_temperature < tz.ntrips →
      tz.last_temperature <
        tz.trip_temp (report_trigger_scan tz.ntrips tz.trip_temp tz.last_temperature)) := by
  obtain ⟨g1, g2, g3, g4⟩ :=
    report_trigger_go_spec tz.trip_temp tz.last_temperature tz.ntrips 0
  simp only [report_trigger_scan]
  rw [Nat.zero_add] at g2 g4
  exact ⟨rfl, g2, fun h => g3 j (Nat.zero_le j) h, g4⟩

/-- C5 witness: with trips at 40/50/60/70 degrees and a last reading of 55
degrees, the handler reports index 2, trip 0 is already passed, and the
reading is still below trip 2. -/
theorem claim_C5_witness :
    exynos_report_trigger (some tz_fixture) = some 2 ∧
    tz_fixture.trip_temp 0 ≤ tz_fixture.last_temperature ∧
    tz_fixture.last_temperature < tz_fixture.trip_temp 2 := by
  have h0 := claim_C5 tz_fixture 0
  refine ⟨h0.1.trans (by rfl), h0.2.2.1 (by decide), ?_⟩
  have h2 := h0.2.2.2 (by decide)
  exact h2

/-- A duplicate-free list of length at least two has a member different
from any given value. -/
theorem exists_mem_ne_of_nodup {l : List Int} (h : l.Nodup) (hlen : 2 ≤ l.length)
    (id : Int) : ∃ y ∈ l, y ≠ id := by
  match l, h, hlen with
  | a :: b :: t, h, _ =>
    have hab : a ≠ b := by
      rcases List.nodup_cons.mp h with ⟨ha, _⟩
      exact fun e => ha (e ▸ List.mem_cons_self b t)
    by_cases hai : a = id
    · exact ⟨b, List.mem_cons_of_mem a (List.mem_cons_self b t),
        fun hb => hab (by rw [hai, hb])⟩
    · exact ⟨a, List.mem_cons_self a (b :: t), hai⟩

/-- Preservation of the registry invariant (and of duplicate-freeness)
along any well-formed sequence of probe/remove steps. -/
theorem runRegOps_inv (ops : List RegOp) :
    ∀ s : RegistryState, s.dtm_dev_list.Nodup →
      regOpsWF s.dtm_dev_list ops = true → registryInv s →
      registryInv (runRegOps s ops) ∧ (runRegOps s ops).dtm_dev_list.Nodup := by
  induction ops with
  | nil =>
    intro s hnd _ hinv
    exact ⟨hinv, hnd⟩
  | cons op rest ih =>
    rintro ⟨l, c⟩ hnd hwf hinv
    cases op with
    | probe id =>
      rw [show regOpsWF l (RegOp.probe id :: rest) =
          (!l.contains id && regOpsWF (l ++ [id]) rest) from rfl,
        Bool.and_eq_true] at hwf
      obtain ⟨hfresh, hrest⟩ := hwf
      have hfresh' : id ∉ l := by
        simpa using hfresh
      rw [show runRegOps ⟨l, c⟩ (RegOp.probe id :: rest) =
          runRegOps (probe_step ⟨l, c⟩ id) rest from rfl]
      apply ih
      · show (l ++ [id]).Nodup
        refine List.Nodup.append hnd (List.nodup_singleton id) ?_
        intro a ha hb
        rw [List.mem_singleton] at hb
        subst hb
        exact hfresh' ha
      · exact hrest
      · show registryInv (probe_step ⟨l, c⟩ id)
        simp only [registryInv] at hinv
        cases l with
        | nil =>
          simp at hinv
          simp [registryInv, probe_step, hinv]
        | cons a t =>
          simp at hinv
          have hne : ((a :: t) ++ [id]).length ≠ 1 := by
            simp only [List.length_append, List.length_cons]
            omega
          simp only [registryInv, probe_step, if_neg hne, hinv]
          simp
    | remove id =>
      rw [show regOpsWF l (RegOp.remove id :: rest) =
          (l.contains id && regOpsWF (l.filter (fun x => x ≠ id)) rest) from rfl,
        Bool.and_eq_true] at hwf
      obtain ⟨hmem, hrest⟩ := hwf
      have hmem' : id ∈ l := by
        simpa using hmem
      have hlne : l ≠ [] := by
        intro h
        subst h
        exact absurd hmem' (List.not_mem_nil id)
      rw [show runRegOps ⟨l, c⟩ (RegOp.remove id :: rest) =
          runRegOps (remove_step ⟨l, c⟩ id) rest from rfl]
      have hc : c = 1 := by
        simp only [registryInv] at hinv
        rwa [if_neg (by rw [List.isEmpty_iff]; exact hlne)] at hinv
      apply ih
      · exact List.Nodup.filter _ hnd
      · exact hrest
      · show registryInv (remove_step ⟨l, c⟩ id)
        by_cases hlen : l.length = 1
        · obtain ⟨a, ha⟩ := List.length_eq_one.mp hlen
          subst ha
          have hid : id = a := by simpa using hmem'
          subst hid
          simp [registryInv, remove_step, hc]
        · have hlen2 : 2 ≤ l.length := by
            have h1 := List.length_pos.mpr hlne
            omega
          obtain ⟨y, hy, hyne⟩ := exists_mem_ne_of_nodup hnd hlen2 id
          have hyf : y ∈ l.filter (fun x => x ≠ id) :=
            List.mem_filter.mpr ⟨hy, by simpa using hyne⟩
          have hfne : ¬ ((l.filter (fun x => x ≠ id)).isEmpty = true) := by
            rw [List.isEmpty_iff]
            exact List.ne_nil_of_mem hyf
          simp only [registryInv, remove_step, if_neg hlen, if_neg hfne]
          exact hc

/-- C8: along every well-formed sequence of probe and remove steps
(starting from the empty registry, probing fresh ids and removing present
ones), the process-wide PM suspend notifier ends up registered exactly
once when the shared device registry is non-empty and not at all when it
is empty — so registration happens only on the empty-to-non-empty probe,
deregistration only on the remove that empties the registry, and removing
one device while another remains keeps the single registration. -/
theorem claim_C8 (ops : List RegOp) (h : regOpsWF [] ops = true) :
    (runRegOps initRegistry ops).notifier_registrations =
      if (runRegOps initRegistry ops).dtm_dev_list.isEmpty then 0 else 1 :=
  (runRegOps_inv ops initRegistry List.nodup_nil h rfl).1

/-- C8 witness: probing devices 0 and 1 and removing them one at a time
keeps the invariant at every prefix — one registration while any device
remains, none after both removals. -/
theorem claim_C8_witness :
    ((runRegOps initRegistry [RegOp.probe 0, RegOp.probe 1]).notifier_registrations =
      if (runRegOps initRegistry [RegOp.probe 0, RegOp.probe 1]).dtm_dev_list.isEmpty
      then 0 else 1) ∧
    ((runRegOps initRegistry
        [RegOp.probe 0, RegOp.probe 1, RegOp.remove 0]).notifier_registrations =
      if (runRegOps initRegistry
          [RegOp.probe 0, RegOp.probe 1, RegOp.remove 0]).dtm_dev_list.isEmpty
      then 0 else 1) ∧
    ((runRegOps initRegistry
        [RegOp.probe 0, RegOp.probe 1, RegOp.remove 0, RegOp.remove 1]).notifier_registrations =
      if (runRegOps initRegistry
          [RegOp.probe 0, RegOp.probe 1, RegOp.remove 0,
            RegOp.remove 1]).dtm_dev_list.isEmpty
      then 0 else 1) :=
  ⟨claim_C8 [RegOp.probe 0, RegOp.probe 1] (by decide),
   claim_C8 [RegOp.probe 0, RegOp.probe 1, RegOp.remove 0] (by decide),
   claim_C8 [RegOp.probe 0, RegOp.probe 1, RegOp.remove 0, RegOp.remove 1] (by decide)⟩

/-- Bracketing of C truncating division for a non-negative dividend:
it agrees with floor division. -/
theorem tdiv_bracket_nonneg {n b : Int} (hn : 0 ≤ n) (hb : 0 < b) :
    b * n.tdiv b ≤ n ∧ n < b * n.tdiv b + b := by
  rw [Int.tdiv_eq_ediv hn hb.le]
  have h1 := Int.ediv_add_emod n b
  have h2 := Int.emod_nonneg n (ne_of_gt hb)
  have h3 := Int.emod_lt_of_pos n hb
  constructor <;> linarith

/-- Bracketing of C truncating division for a non-positive dividend:
it agrees with ceiling division. -/
theorem tdiv_bracket_nonpos {n b : Int} (hn : n ≤ 0) (hb : 0 < b) :
    n ≤ b * n.tdiv b ∧ b * n.tdiv b < n + b := by
  obtain ⟨h1, h2⟩ := tdiv_bracket_nonneg (neg_nonneg.mpr hn) hb
  rw [Int.neg_tdiv, mul_neg] at h1 h2
  constructor <;> linarith

/-- The two-point round trip through raw-code space: scaling a temperature
offset `x` up by `d/a` (truncating) and back down by `a/d` moves it by at
most one degree, provided the scale is at least one code unit per degree
(`0 < a ≤ d`). -/
theorem twoPoint_roundtrip_core {a d : Int} (x : Int) (ha : 0 < a) (had : a ≤ d) :
    x - 1 ≤ ((x * d).tdiv a * a).tdiv d ∧ ((x * d).tdiv a * a).tdiv d ≤ x + 1 := by
  have hd : 0 < d := lt_of_lt_of_le ha had
  by_cases hx : 0 ≤ x
  · have hxd : 0 ≤ x * d := mul_nonneg hx hd.le
    obtain ⟨hb1, hb2⟩ := tdiv_bracket_nonneg hxd ha
    set q := (x * d).tdiv a with hq
    have hq0 : 0 ≤ q := by
      have h5 : 0 < a * (q + 1) := by nlinarith [hb2, hxd]
      nlinarith [h5, ha]
    have hqa : 0 ≤ q * a := mul_nonneg hq0 ha.le
    obtain ⟨hc1, hc2⟩ := tdiv_bracket_nonneg hqa hd
    set z := (q * a).tdiv d with hz
    constructor
    · have h6 : d * (x - 2) < d * z := by nlinarith [hc2, hb2, had]
      have h7 : x - 2 < z := lt_of_mul_lt_mul_left h6 hd.le
      omega
    · have h6 : d * z ≤ d * x := by nlinarith [hc1, hb1]
      have h7 : z ≤ x := le_of_mul_le_mul_left h6 hd
      omega
  · push_neg at hx
    have hxd : x * d ≤ 0 := (mul_neg_of_neg_of_pos hx hd).le
    obtain ⟨hb1, hb2⟩ := tdiv_bracket_nonpos hxd ha
    set q := (x * d).tdiv a with hq
    have hq0 : q ≤ 0 := by
      have h5 : a * q < a * 1 := by nlinarith [hb2, hxd]
      have h6 : q < 1 := lt_of_mul_lt_mul_left h5 ha.le
      omega
    have hqa : q * a ≤ 0 := mul_nonpos_iff.mpr (Or.inr ⟨hq0, ha.le⟩)
    obtain ⟨hc1, hc2⟩ := tdiv_bracket_nonpos hqa hd
    set z := (q * a).tdiv d with hz
    constructor
    · have h6 : d * x ≤ d * z := by nlinarith [hc1, hb1]
      have h7 : x ≤ z := le_of_mul_le_mul_left h6 hd
      omega
    · have h6 : d * z < d * (x + 2) := by nlinarith [hc2, hb2, had]
      have h7 : z < x + 2 := lt_of_mul_lt_mul_left h6 hd.le
      omega

/-- An in-range input temperature passes the `u8` clamp unchanged. -/
theorem clampTempU8_eq {temp : Nat} (h1 : EXYNOS_MIN_TEMP ≤ temp)
    (h2 : temp ≤ EXYNOS_MAX_TEMP) : clampTempU8 temp = temp := by
  unfold clampTempU8 EXYNOS_MIN_TEMP EXYNOS_MAX_TEMP at *
  split_ifs <;> omega

/-- Clamping a value within one degree of an in-range temperature keeps it
within one degree. -/
theorem clampTempInt_near {y t : Int} (ht1 : (EXYNOS_MIN_TEMP : Int) ≤ t)
    (ht2 : t ≤ (EXYNOS_MAX_TEMP : Int)) (hy1 : t - 1 ≤ y) (hy2 : y ≤ t + 1) :
    t - 1 ≤ clampTempInt y ∧ clampTempInt y ≤ t + 1 := by
  unfold clampTempInt EXYNOS_MIN_TEMP EXYNOS_MAX_TEMP at *
  split_ifs <;> omega

/-- C1 counterexample: a TWO_POINT calibration with distinct fused codes
(100 and 101) sixty degrees apart maps 15 degrees to code 100, which maps
back to 25 degrees — a round-trip error of 10, far beyond the claimed
±1: distinct fused codes alone do not bound the round trip. -/
theorem claim_C1_counterexample :
    data_cx_fixture.pdata.cal_type = TYPE_TWO_POINT_TRIMMING ∧
    data_cx_fixture.temp_error1 ≠ data_cx_fixture.temp_error2 ∧
    EXYNOS_MIN_TEMP ≤ 15 ∧ 15 ≤ EXYNOS_MAX_TEMP ∧
    ¬ (|roundTrip data_cx_fixture 15 - (15 : Int)| ≤ 1) :=
  ⟨rfl, by decide, by decide, by decide, by decide⟩

/-- C1 amended: the round trip `code_to_temp (temp_to_code temp)` stays
within ±1 degree of any `temp` in [EXYNOS_MIN_TEMP, EXYNOS_MAX_TEMP],
provided the intermediate raw code fits the `u16` range [0, 65536) — so
the `int`-to-`u16` hand-off does not wrap — and, in the TWO_POINT case,
the trim points are increasing and the fused-code span covers at least one
code unit per degree. -/
theorem claim_C1_amended (data : TmuData) (temp : Nat)
    (h1 : EXYNOS_MIN_TEMP ≤ temp) (h2 : temp ≤ EXYNOS_MAX_TEMP)
    (hlo : 0 ≤ temp_to_code data temp) (hhi : temp_to_code data temp < 65536)
    (htwo : data.pdata.cal_type = TYPE_TWO_POINT_TRIMMING →
      data.pdata.first_point_trim < data.pdata.second_point_trim ∧
      (data.pdata.second_point_trim : Int) - (data.pdata.first_point_trim : Int) ≤
        (data.temp_error2 : Int) - (data.temp_error1 : Int)) :
    |roundTrip data temp - (temp : Int)| ≤ 1 := by
  have hcl : clampTempU8 temp = temp := clampTempU8_eq h1 h2
  have hu : ((toU16 (temp_to_code data temp)) : Int) = temp_to_code data temp := by
    unfold toU16
    rw [Int.emod_eq_of_lt hlo hhi, Int.toNat_of_nonneg hlo]
  have ht1 : (EXYNOS_MIN_TEMP : Int) ≤ (temp : Int) := by exact_mod_cast h1
  have ht2 : (temp : Int) ≤ (EXYNOS_MAX_TEMP : Int) := by exact_mod_cast h2
  rw [roundTrip, abs_le]
  by_cases hc2 : data.pdata.cal_type = TYPE_TWO_POINT_TRIMMING
  · obtain ⟨hp, hd⟩ := htwo hc2
    have htc : temp_to_code data temp =
        (((temp : Int) - (data.pdata.first_point_trim : Int)) *
            ((data.temp_error2 : Int) - (data.temp_error1 : Int))).tdiv
          ((data.pdata.second_point_trim : Int) - (data.pdata.first_point_trim : Int)) +
          (data.temp_error1 : Int) := by
      simp [temp_to_code, hc2, hcl]
    have hct : code_to_temp data (toU16 (temp_to_code data temp)) =
        clampTempInt ((((temp_to_code data temp) - (data.temp_error1 : Int)) *
            ((data.pdata.second_point_trim : Int) -
              (data.pdata.first_point_trim : Int))).tdiv
          ((data.temp_error2 : Int) - (data.temp_error1 : Int)) +
          (data.pdata.first_point_trim : Int)) := by
      simp [code_to_temp, hc2, hu]
    rw [hct, htc, add_sub_cancel_right]
    have ha : (0 : Int) <
        (data.pdata.second_point_trim : Int) - (data.pdata.first_point_trim : Int) := by
      have : (data.pdata.first_point_trim : Int) < (data.pdata.second_point_trim : Int) := by
        exact_mod_cast hp
      linarith
    obtain ⟨hz1, hz2⟩ :=
      twoPoint_roundtrip_core ((temp : Int) - (data.pdata.first_point_trim : Int)) ha hd
    obtain ⟨hcl1, hcl2⟩ := clampTempInt_near ht1 ht2
      (y := (((((temp : Int) - (data.pdata.first_point_trim : Int)) *
          ((data.temp_error2 : Int) - (data.temp_error1 : Int))).tdiv
        ((data.pdata.second_point_trim : Int) - (data.pdata.first_point_trim : Int)) *
          ((data.pdata.second_point_trim : Int) - (data.pdata.first_point_trim : Int))).tdiv
        ((data.temp_error2 : Int) - (data.temp_error1 : Int)) +
        (data.pdata.first_point_trim : Int)))
      (by linarith) (by linarith)
    constructor <;> linarith
  · by_cases hc1 : data.pdata.cal_type = TYPE_ONE_POINT_TRIMMING
    · have htc : temp_to_code data temp =
          (temp : Int) + (data.temp_error1 : Int) - (data.pdata.first_point_trim : Int) := by
        simp [temp_to_code, hc2, hc1, hcl, TYPE_ONE_POINT_TRIMMING, TYPE_TWO_POINT_TRIMMING]
      have hct : code_to_temp data (toU16 (temp_to_code data temp)) =
          clampTempInt ((temp_to_code data temp) - (data.temp_error1 : Int) +
            (data.pdata.first_point_trim : Int)) := by
        simp [code_to_temp, hc2, hc1, hu, TYPE_ONE_POINT_TRIMMING, TYPE_TWO_POINT_TRIMMING]
      rw [hct, htc]
      have he : (temp : Int) + (data.temp_error1 : Int) -
          (data.pdata.first_point_trim : Int) - (data.temp_error1 : Int) +
          (data.pdata.first_point_trim : Int) = (temp : Int) := by ring
      rw [he]
      obtain ⟨hcl1, hcl2⟩ := clampTempInt_near ht1 ht2 (y := (temp : Int))
        (by linarith) (by linarith)
      constructor <;> linarith
    · have hc2' : ¬ data.pdata.cal_type = 1 := hc2
      have hc1' : ¬ data.pdata.cal_type = 0 := hc1
      have htc : temp_to_code data temp =
          (temp : Int) + (data.pdata.default_temp_offset : Int) := by
        simp [temp_to_code, hc2', hc1', hcl, TYPE_ONE_POINT_TRIMMING, TYPE_TWO_POINT_TRIMMING]
      have hct : code_to_temp data (toU16 (temp_to_code data temp)) =
          clampTempInt ((temp_to_code data temp) -
            (data.pdata.default_temp_offset : Int)) := by
        simp [code_to_temp, hc2', hc1', hu, TYPE_ONE_POINT_TRIMMING, TYPE_TWO_POINT_TRIMMING]
      rw [hct, htc, add_sub_cancel_right]
      obtain ⟨hcl1, hcl2⟩ := clampTempInt_near ht1 ht2 (y := (temp : Int))
        (by linarith) (by linarith)
      constructor <;> linarith

/-- C1 witness: the two-point calibration with codes 260 at 25 degrees and
320 at 85 degrees round-trips 50 degrees within one degree. -/
theorem claim_C1_witness : |roundTrip data_fixture 50 - (50 : Int)| ≤ 1 :=
  claim_C1_amended data_fixture 50 (by decide) (by decide) (by decide) (by decide)
    (fun _ => ⟨by decide, by decide⟩)

/-- C10: the cooling-device temperature push is suppressed exactly for
device id 1: `exynos_get_temp` performs no `set_cur_temp` call when the
device id is 1, performs exactly one call (with the suspend flag and the
Celsius temperature) when another id has a bound cooling device providing
the operation, and the `PM_SUSPEND_PREPARE` notifier never calls on behalf
of a device with id 1 while calling for every listed device with a capable
cooling device and a different id. -/
theorem claim_C10 (data : TmuData) (tp : Bool) (raw : Nat) (susp : Bool)
    (devs : List TmuData) (gsusp : Bool) :
    (data.id = 1 → (exynos_get_temp data tp raw susp).calls = []) ∧
    (∀ cdev, data.id ≠ 1 → data.cool_dev = some cdev →
      cdev.has_set_cur_temp = true → tp = true →
      (exynos_get_temp data tp raw susp).calls =
        [{ suspended := susp,
           temp := Int.tdiv (code_to_temp data raw * MCELSIUS) 1000 }]) ∧
    (∀ c, ((1 : Int), c) ∉ (exynos_pm_notifier devs gsusp PmEvent.suspend_prepare).2) ∧
    (∀ d ∈ devs, ∀ cdev, d.cool_dev = some cdev → cdev.has_set_cur_temp = true →
      d.id ≠ 1 →
      (d.id, ({ suspended := true, temp := 0 } : SetCurTempCall)) ∈
        (exynos_pm_notifier devs gsusp PmEvent.suspend_prepare).2) := by
  refine ⟨?_, ?_, ?_, ?_⟩
  · intro h
    cases tp with
    | false => rfl
    | true =>
      rcases hcd : data.cool_dev with _ | cdev
      · simp [exynos_get_temp, hcd]
      · simp [exynos_get_temp, hcd, h]
  · intro cdev h1 h2 h3 h4
    subst h4
    simp [exynos_get_temp, h2, h3, bne_iff_ne, h1]
  · intro c hc
    rw [show (exynos_pm_notifier devs gsusp PmEvent.suspend_prepare).2 =
        devs.filterMap (fun devnode =>
          match devnode.cool_dev with
          | some cdev =>
              if cdev.has_set_cur_temp && devnode.id != 1 then
                some (devnode.id, { suspended := true, temp := 0 })
              else none
          | none => none) from rfl, List.mem_filterMap] at hc
    obtain ⟨d, _, hfd⟩ := hc
    rcases hcd : d.cool_dev with _ | cdev <;> rw [hcd] at hfd
    · simp at hfd
    · split at hfd
      · split at hfd
        · rename_i hcnd
          rw [Option.some_inj, Prod.mk.injEq] at hfd
          rw [Bool.and_eq_true, bne_iff_ne] at hcnd
          exact hcnd.2 hfd.1
        · simp at hfd
      · simp at hfd
  · intro d hd cdev h1 h2 h3
    rw [show (exynos_pm_notifier devs gsusp PmEvent.suspend_prepare).2 =
        devs.filterMap (fun devnode =>
          match devnode.cool_dev with
          | some cdev =>
              if cdev.has_set_cur_temp && devnode.id != 1 then
                some (devnode.id, { suspended := true, temp := 0 })
              else none
          | none => none) from rfl, List.mem_filterMap]
    refine ⟨d, hd, ?_⟩
    rw [h1]
    simp [h2, bne_iff_ne, h3]

/-- C10 witness: the id-1 device pushes nothing on a read; the id-2 device
pushes once per read; the suspend-prepare notifier over both devices calls
only on behalf of id 2. -/
theorem claim_C10_witness :
    (exynos_get_temp data_cool_id1_fixture true 285 false).calls = [] ∧
    (exynos_get_temp data_cool_fixture true 285 false).calls =
      [{ suspended := false,
         temp := Int.tdiv (code_to_temp data_cool_fixture 285 * MCELSIUS) 1000 }] ∧
    ((1 : Int), ({ suspended := true, temp := 0 } : SetCurTempCall)) ∉
      (exynos_pm_notifier [data_cool_id1_fixture, data_cool_fixture] false
        PmEvent.suspend_prepare).2 ∧
    ((2 : Int), ({ suspended := true, temp := 0 } : SetCurTempCall)) ∈
      (exynos_pm_notifier [data_cool_id1_fixture, data_cool_fixture] false
        PmEvent.suspend_prepare).2 :=
  ⟨(claim_C10 data_cool_id1_fixture true 285 false [] false).1 rfl,
   (claim_C10 data_cool_fixture true 285 false [] false).2.1
     { has_set_cur_temp := true } (by decide) rfl rfl rfl,
   (claim_C10 data_cool_fixture true 285 false
     [data_cool_id1_fixture, data_cool_fixture] false).2.2.1
     { suspended := true, temp := 0 },
   (claim_C10 data_cool_fixture true 285 false
     [data_cool_id1_fixture, data_cool_fixture] false).2.2.2
     data_cool_fixture (by simp) { has_set_cur_temp := true } rfl rfl (by decide)⟩

/-- Every write made by the pending-interrupt clearing fold lands on an
interrupt-pending register of one of the visited sensors. -/
theorem clear_irqs_fold_writes (d : TmuData) (P : Nat → Prop) :
    ∀ (l : List Nat) (m : Mmio), (∀ i ∈ l, P (intpend_reg i)) →
      (∀ w ∈ m.writes, P w.1) →
      ∀ w ∈ (l.foldl (fun m i =>
          if d.sensors &&& (1 <<< i) ≠ 0 then
            m.writel (m.readl (intpend_reg i)) (intpend_reg i)
          else m) m).writes, P w.1 := by
  intro l
  induction l with
  | nil =>
    intro m _ hm w hw
    exact hm w hw
  | cons a t ih =>
    intro m hl hm w hw
    rw [List.foldl_cons] at hw
    refine ih _ (fun i hi => hl i (List.mem_cons_of_mem a hi)) ?_ w hw
    intro w' hw'
    by_cases hc : d.sensors &&& (1 <<< a) ≠ 0
    · rw [if_pos hc] at hw'
      simp only [Mmio.writel] at hw'
      rcases List.mem_append.mp hw' with h | h
      · exact hm w' h
      · rw [List.mem_singleton] at h
        subst h
        exact hl a (List.mem_cons_self a t)
    · rw [if_neg hc] at hw'
      exact hm w' hw'

/-- C7: when the active governor is the power-budget allocator,
`exynos8895_tmu_initialize` still returns 0 and its write trace touches no
rising/falling threshold register (only pending-interrupt clears), and
`exynos8895_tmu_control` with `on = true` writes no per-sensor
interrupt-enable register (only the control and averaging registers). -/
theorem claim_C7 (d : TmuData) (tz : ThermalZone) (m : Mmio)
    (hg : tz.governor_name = "power_allocator") (hw : m.writes = []) :
    (exynos8895_tmu_init d tz m).2.2 = 0 ∧
    (∀ w ∈ (exynos8895_tmu_init d tz m).2.1.writes, w.1 ∉ thresholdAddrs) ∧
    (∀ w ∈ (exynos8895_tmu_control d tz m true).writes, w.1 ∉ intenAddrs) := by
  refine ⟨rfl, ?_, ?_⟩
  · intro w hwmem
    have heq : (exynos8895_tmu_init d tz m).2.1 =
        exynos8895_tmu_clear_irqs
          ((List.range TOTAL_SENSORS).foldl (tmu_init_trim_step m) d) m := by
      simp [exynos8895_tmu_init, hg]
    rw [heq] at hwmem
    refine clear_irqs_fold_writes _ (fun a => a ∉ thresholdAddrs)
      (List.range TOTAL_SENSORS) m ?_ ?_ w hwmem
    · intro i hi
      rw [show TOTAL_SENSORS = 8 from rfl, List.mem_range] at hi
      interval_cases i <;> decide
    · rw [hw]
      intro w' hw'
      exact absurd hw' (List.not_mem_nil w')
  · intro w hwmem
    simp only [exynos8895_tmu_control, hg, ne_eq, not_true_eq_false, if_false,
      Mmio.writel, hw, List.nil_append, List.singleton_append, List.cons_append,
      List.mem_cons, List.not_mem_nil, or_false] at hwmem
    rcases hwmem with rfl | rfl | rfl <;>
      first
        | exact (by decide : EXYNOS_TMU_REG_CONTROL ∉ intenAddrs)
        | exact (by decide : EXYNOS_TMU_REG_AVG_CON ∉ intenAddrs)

/-- C7 witness: under the power-allocator governor, a concrete device's
initialization returns 0 and its recorded writes (pending-interrupt
clears) and the control-on writes (control/averaging registers) avoid the
threshold and interrupt-enable registers. -/
theorem claim_C7_witness :
    (exynos8895_tmu_init data_fixture tz_pa_fixture mmio_fixture).2.2 = 0 ∧
    (((280 : Nat), (0 : Nat)).1 ∉ thresholdAddrs) ∧
    (((32 : Nat), (0 : Nat)).1 ∉ intenAddrs) :=
  ⟨(claim_C7 data_fixture tz_pa_fixture mmio_fixture rfl rfl).1,
   (claim_C7 data_fixture tz_pa_fixture mmio_fixture rfl rfl).2.1 (280, 0) (by decide),
   (claim_C7 data_fixture tz_pa_fixture mmio_fixture rfl rfl).2.2 (32, 0) (by decide)⟩

/-- C9 witness: device 1 throttles at 86000; device 2 then observes the
shared flag and its release is decided by its own in-threshold. -/
theorem claim_C9_witness :
    (exynos_throttle_cpu_hotplug data_fixture false 86000).1 = true ∧
    ((exynos_throttle_cpu_hotplug data_cool_fixture
        (exynos_throttle_cpu_hotplug data_fixture false 86000).1 69000).1 = false ↔
      Int.tdiv 69000 MCELSIUS < data_cool_fixture.hotplug_in_threshold) :=
  claim_C9 data_fixture data_cool_fixture 86000 69000 (by decide)

end ExynosTmu
